import Mathlib

/-
Verification development for the collective-communication process-group engine
implemented in src/src/ProcessGroupCCL.cpp (namespace c10d).

The embedding models:
  * tensors (dense host buffers): shape, backing storage id, storage offset,
    element type, plus the contiguity/sparsity/device flags that the
    validation helpers inspect;
  * the static lookup maps cclOps / cclDatatypes (std::map::at is modelled as
    an Option-valued lookup; a missing key throws std::out_of_range, which the
    surrounding CCL_CHECK macro catches and rethrows as a generic
    runtime_error, modelled by the substrate error kind);
  * the buffer-layout reconciler computeLengthsAndCheckAndGetFlat;
  * the WorkCCL handle lifecycle (destructor, isCompleted, isSuccess, wait);
  * the validation and dispatch logic of the collective entry points.

Machine-integer caveats, modelled explicitly where they matter:
  * checkSplitSizes accumulates the int64_t split sizes into a C++ `int`
    (32-bit): modelled by toInt32 / accumulateInt with two's-complement
    wrapping (the behaviour of all mainstream compilers; signed overflow is
    formally undefined in C++);
  * sendCounts/recvCounts are std::vector<size_t>; products of an int64_t
    split entry and a size_t length are computed modulo 2^64 (intToSizeT).
-/

namespace c10d

/-- Element types of at::ScalarType that are relevant here: the seven kinds the
cclDatatypes map supports plus some unsupported ones (Short, Half, Bool). -/
inductive ScalarType
  | Byte | Char | Short | Int | Long | Half | Float | Double | Bool | BFloat16
deriving DecidableEq, Inhabited

/-- A dense host tensor: shape, backing storage identity (two tensors alias
iff they carry the same storage id), storage offset in elements, element
type, and the flags inspected by checkSingleTensorHelper. -/
structure Tensor where
  shape : List Nat
  storage : Nat
  storageOffset : Int
  dtype : ScalarType
  contiguous : Bool
  sparse : Bool
  cuda : Bool
deriving DecidableEq

instance : Inhabited Tensor := ⟨⟨[], 0, 0, ScalarType.Float, true, false, false⟩⟩

/-- Element count: at::Tensor::numel is the product of the shape. -/
def Tensor.numel (t : Tensor) : Nat := t.shape.prod

/-- Leading dimension, tensor.size(0). Call sites only use it on tensors with
at least one dimension (size(0) raises on a 0-dim tensor). -/
def Tensor.dim0 (t : Tensor) : Nat := t.shape.headD 0

/-- Loop state of computeLengthsAndCheckAndGetFlat: the variables firstTensor
(with storage and firstStorageOffset, which the code keeps in sync with it;
firstLength is anchor.numel), offset, and isFlat. -/
structure FlatState where
  anchor : Tensor
  offset : Nat
  isFlat : Bool
deriving DecidableEq

/-- One iteration of the loop in computeLengthsAndCheckAndGetFlat
(src/src/ProcessGroupCCL.cpp lines 166-187): possibly re-anchor onto the
first non-empty tensor, then apply the in-place check to non-empty tensors,
then advance the running offset. -/
def flatStep (s : FlatState) (cur : Tensor) : FlatState :=
  let s1 := if s.anchor.numel = 0 ∧ cur.numel ≠ 0 then
      { anchor := cur, offset := s.offset, isFlat := s.isFlat } else s
  let bad : Bool := cur.numel != 0 &&
      (!(cur.storage == s1.anchor.storage) ||
       !(cur.storageOffset == s1.anchor.storageOffset + (s1.offset : Int)))
  { anchor := s1.anchor, offset := s1.offset + cur.numel, isFlat := s1.isFlat && !bad }

/-- Result buffer of the reconciler: either the anchor tensor itself
(zero-copy flat case) or a freshly allocated buffer
at::empty with the total element count and the anchor's options. -/
inductive FlatTensor
  | existing (t : Tensor)
  | fresh (numel : Nat) (dtype : ScalarType)
deriving DecidableEq

/-- computeLengthsAndCheckAndGetFlat (src/src/ProcessGroupCCL.cpp lines
153-199).  Returns (isFlat, lengths, flatTensor).  The C++ signature writes
the lengths into a caller-supplied vector whose size is the group size; at
every call site that size equals the number of tensors, so the model takes
the tensor list alone.  An empty list would read tensors[0] out of bounds
(undefined); the model returns none there. -/
def computeLengthsAndCheckAndGetFlat : List Tensor → Option (Bool × List Nat × FlatTensor)
  | [] => none
  | t0 :: rest =>
    let ts := t0 :: rest
    let fin := ts.foldl flatStep ⟨t0, 0, true⟩
    some (if fin.isFlat then (true, ts.map Tensor.numel, FlatTensor.existing fin.anchor)
          else (false, ts.map Tensor.numel, FlatTensor.fresh fin.offset fin.anchor.dtype))

/-- Flat / not-flat verdict of the reconciler. -/
def reconcilerVerdict (ts : List Tensor) : Option Bool :=
  (computeLengthsAndCheckAndGetFlat ts).map (fun r => r.1)

/-- Total element count of a tensor collection. -/
def sumNumel (ts : List Tensor) : Nat := (ts.map Tensor.numel).sum

/-- Sum of the element counts of the first i tensors. -/
def prefixNumel (ts : List Tensor) (i : Nat) : Nat := sumNumel (ts.take i)

/-- The in-place check of the reconciler, relative to anchor a and a running
offset: every non-empty tensor must alias the anchor's storage and sit at the
anchor's offset plus the running element offset. -/
def inPlaceFrom (a : Tensor) : Nat → List Tensor → Bool
  | _, [] => true
  | off, t :: ts =>
      (!(t.numel != 0 &&
         (!(t.storage == a.storage) ||
          !(t.storageOffset == a.storageOffset + (off : Int)))))
      && inPlaceFrom a (off + t.numel) ts

theorem flatStep_zero (s : FlatState) (t : Tensor) (h : t.numel = 0) :
    flatStep s t = s := by
  cases s
  simp [flatStep, h]

theorem sumNumel_nil : sumNumel [] = 0 := rfl

theorem sumNumel_cons (t : Tensor) (ts : List Tensor) :
    sumNumel (t :: ts) = t.numel + sumNumel ts := by
  simp [sumNumel]

theorem prefixNumel_zero (ts : List Tensor) : prefixNumel ts 0 = 0 := rfl

theorem prefixNumel_cons_succ (t : Tensor) (ts : List Tensor) (i : Nat) :
    prefixNumel (t :: ts) (i + 1) = t.numel + prefixNumel ts i := by
  simp [prefixNumel, sumNumel]

/-- Once the anchor is a non-empty tensor, the loop never re-anchors: it just
accumulates the offset and conjoins the in-place checks. -/
theorem foldl_flatStep_anchored (a : Tensor) (ha : a.numel ≠ 0) :
    ∀ (ts : List Tensor) (off : Nat) (fl : Bool),
      List.foldl flatStep ⟨a, off, fl⟩ ts =
        ⟨a, off + sumNumel ts, fl && inPlaceFrom a off ts⟩ := by
  intro ts
  induction ts with
  | nil => intro off fl; simp [sumNumel, inPlaceFrom]
  | cons t ts ih =>
    intro off fl
    have hstep : flatStep ⟨a, off, fl⟩ t =
        ⟨a, off + t.numel,
         fl && (!(t.numel != 0 &&
           (!(t.storage == a.storage) ||
            !(t.storageOffset == a.storageOffset + (off : Int)))))⟩ := by
      simp [flatStep, ha]
    rw [List.foldl_cons, hstep, ih]
    simp only [sumNumel_cons, inPlaceFrom, FlatState.mk.injEq, true_and]
    exact ⟨by omega, by simp [Bool.and_assoc]⟩

/-- Characterization of the whole loop started from a zero-length initial
anchor: if every tensor is empty the state is untouched; otherwise the state
re-anchors onto the first non-empty tensor and performs the in-place checks
against it. -/
theorem foldl_flatStep_char (x : Tensor) (hx : x.numel = 0) :
    ∀ ts : List Tensor,
      List.foldl flatStep ⟨x, 0, true⟩ ts =
        match ts.find? (fun t => t.numel != 0) with
        | none => ⟨x, 0, true⟩
        | some a => ⟨a, sumNumel ts, inPlaceFrom a 0 ts⟩ := by
  intro ts
  induction ts with
  | nil => simp
  | cons t ts ih =>
    by_cases ht : t.numel = 0
    · rw [List.foldl_cons, flatStep_zero _ _ ht]
      rw [List.find?_cons_of_neg _ (by simp [ht])]
      rw [ih]
      cases hfind : ts.find? (fun t => t.numel != 0) with
      | none => simp
      | some a =>
        simp only
        have h1 : sumNumel (t :: ts) = sumNumel ts := by
          simp [sumNumel_cons, ht]
        have h2 : inPlaceFrom a 0 (t :: ts) = inPlaceFrom a 0 ts := by
          simp [inPlaceFrom, ht]
        rw [h1, h2]
    · rw [List.find?_cons_of_pos _ (by simp [ht])]
      have hstep : flatStep ⟨x, 0, true⟩ t = ⟨t, t.numel, true⟩ := by
        simp [flatStep, hx, ht]
      rw [List.foldl_cons, hstep]
      rw [foldl_flatStep_anchored t ht ts t.numel true]
      have h2 : inPlaceFrom t 0 (t :: ts) = inPlaceFrom t t.numel ts := by
        simp [inPlaceFrom]
      simp [sumNumel_cons, h2]

/-- If every tensor of the list aliases the anchor's storage at the running
offset, the in-place check succeeds. -/
theorem inPlaceFrom_of_contig (a : Tensor) :
    ∀ (ts : List Tensor) (off : Nat),
      (∀ (i : Nat) (h : i < ts.length),
         (ts.get ⟨i, h⟩).numel ≠ 0 →
         (ts.get ⟨i, h⟩).storage = a.storage ∧
         (ts.get ⟨i, h⟩).storageOffset =
           a.storageOffset + (off : Int) + (prefixNumel ts i : Int)) →
      inPlaceFrom a off ts = true := by
  intro ts
  induction ts with
  | nil => intro off _; rfl
  | cons t ts ih =>
    intro off H
    have hhead := H 0 (by simp)
    simp only [List.get, prefixNumel_zero] at hhead
    have htail : inPlaceFrom a (off + t.numel) ts = true := by
      refine ih (off + t.numel) ?_
      intro i h hne
      have := H (i + 1) (by simpa using Nat.succ_lt_succ h)
      simp only [List.get, prefixNumel_cons_succ] at this
      rcases this hne with ⟨h1, h2⟩
      refine ⟨h1, ?_⟩
      rw [h2]
      push_cast
      ring
    unfold inPlaceFrom
    rw [htail]
    by_cases hz : t.numel = 0
    · simp [hz]
    · rcases hhead hz with ⟨h1, h2⟩
      simp [hz, h1, h2]

/-- Final loop state when the list has a first non-empty tensor a (which is the
anchor the loop adopts). -/
theorem foldl_flatStep_main (t0 : Tensor) (rest : List Tensor) (a : Tensor)
    (hfind : (t0 :: rest).find? (fun t => t.numel != 0) = some a) :
    (t0 :: rest).foldl flatStep ⟨t0, 0, true⟩ =
      ⟨a, sumNumel (t0 :: rest), inPlaceFrom a 0 (t0 :: rest)⟩ := by
  by_cases ht : t0.numel = 0
  · rw [foldl_flatStep_char t0 ht (t0 :: rest), hfind]
  · have hf0 : (t0 :: rest).find? (fun t => t.numel != 0) = some t0 :=
      List.find?_cons_of_pos _ (by simp [ht])
    rw [hf0] at hfind
    obtain rfl : t0 = a := by injection hfind
    have h := foldl_flatStep_anchored t0 ht (t0 :: rest) 0 true
    simpa using h

/-- Final loop state when every tensor is empty: nothing changes. -/
theorem foldl_flatStep_allzero (t0 : Tensor) (rest : List Tensor)
    (hall : (t0 :: rest).find? (fun t => t.numel != 0) = none) :
    (t0 :: rest).foldl flatStep ⟨t0, 0, true⟩ = ⟨t0, 0, true⟩ := by
  have ht : t0.numel = 0 := by
    have := List.find?_eq_none.mp hall t0 (by simp)
    simpa using this
  rw [foldl_flatStep_char t0 ht (t0 :: rest), hall]

/-- The verdict of the reconciler is the final isFlat flag of the loop. -/
theorem reconcilerVerdict_cons (c : Tensor) (cs : List Tensor) :
    reconcilerVerdict (c :: cs) =
      some (((c :: cs).foldl flatStep ⟨c, 0, true⟩).isFlat) := by
  simp only [reconcilerVerdict, computeLengthsAndCheckAndGetFlat]
  cases h : ((c :: cs).foldl flatStep ⟨c, 0, true⟩).isFlat <;> simp [h]

/-- The isFlat outcome does not depend on which zero-length tensor seeds the
anchor. -/
theorem foldl_isFlat_zero_init (x y : Tensor) (hx : x.numel = 0)
    (hy : y.numel = 0) (ts : List Tensor) :
    (List.foldl flatStep ⟨x, 0, true⟩ ts).isFlat =
      (List.foldl flatStep ⟨y, 0, true⟩ ts).isFlat := by
  rw [foldl_flatStep_char x hx ts, foldl_flatStep_char y hy ts]
  cases h : ts.find? (fun t => t.numel != 0) <;> simp

/-- Seeding the loop with a zero-length anchor in front of list y :: ts gives
the same isFlat outcome as seeding it with y itself. -/
theorem foldl_isFlat_head_init (y x : Tensor) (hx : x.numel = 0)
    (ts : List Tensor) :
    (List.foldl flatStep ⟨x, 0, true⟩ (y :: ts)).isFlat =
      (List.foldl flatStep ⟨y, 0, true⟩ (y :: ts)).isFlat := by
  by_cases hy : y.numel = 0
  · exact foldl_isFlat_zero_init x y hx hy (y :: ts)
  · rw [foldl_flatStep_char x hx (y :: ts)]
    rw [List.find?_cons_of_pos _ (by simp [hy])]
    rw [foldl_flatStep_anchored y hy (y :: ts) 0 true]
    simp

/-- Claim C3: for every non-empty list of buffers that already occupy one
contiguous backing allocation in rank order (each buffer aliases the first
non-empty buffer's storage and its storage offset equals the anchor's offset
plus the sum of preceding lengths), computeLengthsAndCheckAndGetFlat reports
flat, fills the length table with each buffer's element count, and returns
the anchor buffer itself as the flat buffer without allocating a new
buffer. -/
theorem c3_contiguous_reports_flat (t0 : Tensor) (rest : List Tensor) (a : Tensor)
    (hfind : (t0 :: rest).find? (fun t => t.numel != 0) = some a)
    (hcontig : ∀ (i : Nat) (h : i < (t0 :: rest).length),
       ((t0 :: rest).get ⟨i, h⟩).storage = a.storage ∧
       ((t0 :: rest).get ⟨i, h⟩).storageOffset =
         a.storageOffset + (prefixNumel (t0 :: rest) i : Int)) :
    computeLengthsAndCheckAndGetFlat (t0 :: rest) =
      some (true, (t0 :: rest).map Tensor.numel, FlatTensor.existing a) := by
  have hip : inPlaceFrom a 0 (t0 :: rest) = true := by
    refine inPlaceFrom_of_contig a (t0 :: rest) 0 ?_
    intro i h _
    rcases hcontig i h with ⟨h1, h2⟩
    refine ⟨h1, ?_⟩
    rw [h2]
    push_cast
    ring
  have hfold := foldl_flatStep_main t0 rest a hfind
  simp [computeLengthsAndCheckAndGetFlat, hfold, hip]

/-- Claim C4: if the first buffer has zero elements, the reconciler adopts the
first non-empty buffer as the layout anchor for all the in-place checks (the
verdict is exactly the in-place check against that buffer, and both result
branches are built from it); and on an all-zero-length list it reports flat
with a zero-sized flat buffer. -/
theorem c4_anchor_adoption_and_all_zero :
    (∀ (t0 : Tensor) (rest : List Tensor) (a : Tensor),
       t0.numel = 0 →
       (t0 :: rest).find? (fun t => t.numel != 0) = some a →
       computeLengthsAndCheckAndGetFlat (t0 :: rest) =
         some (if inPlaceFrom a 0 (t0 :: rest)
               then (true, (t0 :: rest).map Tensor.numel, FlatTensor.existing a)
               else (false, (t0 :: rest).map Tensor.numel,
                     FlatTensor.fresh (sumNumel (t0 :: rest)) a.dtype))) ∧
    (∀ (t0 : Tensor) (rest : List Tensor),
       (∀ t ∈ t0 :: rest, t.numel = 0) →
       t0.numel = 0 ∧
       computeLengthsAndCheckAndGetFlat (t0 :: rest) =
         some (true, (t0 :: rest).map Tensor.numel, FlatTensor.existing t0)) := by
  constructor
  · intro t0 rest a _ hfind
    have hfold := foldl_flatStep_main t0 rest a hfind
    cases hip : inPlaceFrom a 0 (t0 :: rest) <;>
      simp [computeLengthsAndCheckAndGetFlat, hfold, hip]
  · intro t0 rest hall
    have hz : t0.numel = 0 := hall t0 (by simp)
    have hnone : (t0 :: rest).find? (fun t => t.numel != 0) = none := by
      rw [List.find?_eq_none]
      intro t ht
      simpa using hall t ht
    have hfold := foldl_flatStep_allzero t0 rest hnone
    exact ⟨hz, by simp [computeLengthsAndCheckAndGetFlat, hfold]⟩

/-- Claim C10: a zero-length buffer never affects the flat verdict: inserting
one anywhere in a (non-empty) buffer list, whatever its storage and offset,
leaves the flat/not-flat result unchanged. -/
theorem c10_zero_length_irrelevant (ts1 ts2 : List Tensor) (z : Tensor)
    (hz : z.numel = 0) (hne : ts1 ++ ts2 ≠ []) :
    reconcilerVerdict (ts1 ++ z :: ts2) = reconcilerVerdict (ts1 ++ ts2) := by
  cases ts1 with
  | nil =>
    cases ts2 with
    | nil => exact absurd rfl hne
    | cons c cs =>
      rw [List.nil_append, List.nil_append]
      rw [reconcilerVerdict_cons z (c :: cs), reconcilerVerdict_cons c cs]
      rw [List.foldl_cons, flatStep_zero _ _ hz]
      exact congrArg some (foldl_isFlat_head_init c z hz cs)
  | cons p ts1p =>
    have hins : ∀ (s : FlatState),
        List.foldl flatStep s (ts1p ++ z :: ts2) =
          List.foldl flatStep s (ts1p ++ ts2) := by
      intro s
      rw [List.foldl_append, List.foldl_cons, flatStep_zero _ _ hz,
          ← List.foldl_append]
    rw [List.cons_append, List.cons_append]
    rw [reconcilerVerdict_cons p (ts1p ++ z :: ts2),
        reconcilerVerdict_cons p (ts1p ++ ts2)]
    rw [List.foldl_cons, List.foldl_cons, hins]

/-- Sample buffer constructor for concrete witnesses: a 1-dimensional dense
host tensor with n elements on storage st at offset off. -/
def sampleT (n st : Nat) (off : Int) : Tensor :=
  ⟨[n], st, off, ScalarType.Float, true, false, false⟩

/-- Witness for C3 at a concrete contiguous triple. -/
theorem c3_witness :
    computeLengthsAndCheckAndGetFlat (sampleT 2 7 0 :: [sampleT 3 7 2, sampleT 1 7 5]) =
      some (true, (sampleT 2 7 0 :: [sampleT 3 7 2, sampleT 1 7 5]).map Tensor.numel,
            FlatTensor.existing (sampleT 2 7 0)) :=
  c3_contiguous_reports_flat (sampleT 2 7 0) [sampleT 3 7 2, sampleT 1 7 5]
    (sampleT 2 7 0) (by decide) (by decide)

/-- Witness for C4 at concrete lists: a leading zero-length buffer followed by
a non-empty one, and an all-zero pair. -/
theorem c4_witness :
    (computeLengthsAndCheckAndGetFlat (sampleT 0 1 0 :: [sampleT 2 9 4]) =
       some (if inPlaceFrom (sampleT 2 9 4) 0 (sampleT 0 1 0 :: [sampleT 2 9 4])
             then (true, (sampleT 0 1 0 :: [sampleT 2 9 4]).map Tensor.numel,
                   FlatTensor.existing (sampleT 2 9 4))
             else (false, (sampleT 0 1 0 :: [sampleT 2 9 4]).map Tensor.numel,
                   FlatTensor.fresh (sumNumel (sampleT 0 1 0 :: [sampleT 2 9 4]))
                     (sampleT 2 9 4).dtype))) ∧
    (sampleT 0 1 0).numel = 0 ∧
    computeLengthsAndCheckAndGetFlat (sampleT 0 1 0 :: [sampleT 0 2 3]) =
      some (true, (sampleT 0 1 0 :: [sampleT 0 2 3]).map Tensor.numel,
            FlatTensor.existing (sampleT 0 1 0)) := by
  refine ⟨c4_anchor_adoption_and_all_zero.1 (sampleT 0 1 0) [sampleT 2 9 4]
    (sampleT 2 9 4) (by decide) (by decide), ?_, ?_⟩
  · exact (c4_anchor_adoption_and_all_zero.2 (sampleT 0 1 0) [sampleT 0 2 3]
      (by decide)).1
  · exact (c4_anchor_adoption_and_all_zero.2 (sampleT 0 1 0) [sampleT 0 2 3]
      (by decide)).2

/-- Witness for C10 at a concrete insertion of a zero-length buffer with an
unrelated storage and offset. -/
theorem c10_witness :
    reconcilerVerdict ([sampleT 1 3 0] ++ sampleT 0 5 9 :: []) =
      reconcilerVerdict ([sampleT 1 3 0] ++ []) :=
  c10_zero_length_irrelevant [sampleT 1 3 0] [] (sampleT 0 5 9)
    (by decide) (by decide)

/-- Reduction operators of the c10d framework header (external to this
repository); the cclOps map only supports the first four. -/
inductive ReduceOp
  | SUM | PRODUCT | MIN | MAX | BAND | BOR | BXOR
deriving DecidableEq

/-- Reduction codes of the ccl substrate. -/
inductive CclReduction
  | min | max | sum | prod
deriving DecidableEq

/-- Data-type codes of the ccl substrate. -/
inductive CclDataType
  | dt_char | dt_int | dt_bfp16 | dt_float | dt_double | dt_int64
deriving DecidableEq

/-- Op mapping (src/src/ProcessGroupCCL.cpp lines 58-64).  std::map::at is
modelled as an Option-valued lookup: none means the key is absent and at
throws std::out_of_range. -/
def cclOps : ReduceOp → Option CclReduction
  | ReduceOp.MIN => some CclReduction.min
  | ReduceOp.MAX => some CclReduction.max
  | ReduceOp.SUM => some CclReduction.sum
  | ReduceOp.PRODUCT => some CclReduction.prod
  | _ => none

/-- Type mapping (src/src/ProcessGroupCCL.cpp lines 67-76). -/
def cclDatatypes : ScalarType → Option CclDataType
  | ScalarType.Byte => some CclDataType.dt_char
  | ScalarType.Char => some CclDataType.dt_char
  | ScalarType.Double => some CclDataType.dt_double
  | ScalarType.BFloat16 => some CclDataType.dt_bfp16
  | ScalarType.Float => some CclDataType.dt_float
  | ScalarType.Int => some CclDataType.dt_int
  | ScalarType.Long => some CclDataType.dt_int64
  | _ => none

/-- Error kinds reaching the caller: validation errors raised by TORCH_CHECK;
unsupported-operation errors; substrate errors as rethrown by the CCL_CHECK
macro (which also converts the std::out_of_range of a failed map lookup into
a generic runtime_error); the invalid-state error of isSuccess; and a marker
for out-of-bounds vector indexing, which in the C++ is undefined
behaviour. -/
inductive CclError
  | validation (msg : String)
  | unsupported (msg : String)
  | substrate (msg : String)
  | invalidState (msg : String)
  | undefinedBehavior (msg : String)
deriving DecidableEq

/-- TORCH_CHECK: raise a validation error when the condition fails. -/
def torchCheck (cond : Bool) (msg : String) : Except CclError Unit :=
  if cond then Except.ok () else Except.error (CclError.validation msg)

/-- checkSingleTensorHelper (lines 85-91).  In the model numel is a Nat, so
the non-negativity check is trivially true, as it is for int64 numel in
practice. -/
def checkSingleTensorHelper (t : Tensor) : Except CclError Unit := do
  torchCheck t.contiguous ("input tensor has to be contiguous")
  torchCheck (!t.sparse) ("input tensor has to be dense")
  torchCheck (!t.cuda) ("CUDA tensor detected and CCL does not support CUDA buffers")
  torchCheck (decide (0 ≤ t.numel)) ("input tensor numel should be non-negative")

/-- checkRank (lines 93-96). -/
def checkRank (rank : Int) (size : Nat) : Except CclError Unit :=
  torchCheck (decide (0 ≤ rank ∧ rank < (size : Int))) ("unexpected rank")

/-- checkSingleTensor (lines 98-104). -/
def checkSingleTensor (tensors : List Tensor) : Except CclError Unit := do
  torchCheck (decide (tensors.length = 1))
    ("CCL process group does not support tensors count " ++ toString tensors.length)
  checkSingleTensorHelper (tensors.getD 0 default)

/-- checkSameSizeAndType (lines 106-117). -/
def checkSameSizeAndType (t : Tensor) : List Tensor → Except CclError Unit
  | [] => Except.ok ()
  | cur :: rest => do
    torchCheck (decide (cur.numel = t.numel ∧ cur.dtype = t.dtype))
      ("tensors are not equal in size or data type")
    checkSingleTensorHelper cur
    checkSameSizeAndType t rest

/-- checkSameType (lines 119-129). -/
def checkSameType (t : Tensor) : List Tensor → Except CclError Unit
  | [] => Except.ok ()
  | cur :: rest => do
    torchCheck (decide (cur.dtype = t.dtype)) ("tensors are not equal in data type")
    checkSingleTensorHelper cur
    checkSameType t rest

/-- Conversion of an int64_t value to a 32-bit int: two's-complement
wrap-around (the behaviour of mainstream compilers; out-of-range conversion
is implementation-defined before C++20 and wrapping from C++20 on). -/
def toInt32 (x : Int) : Int := (x + 2 ^ 31) % 2 ^ 32 - 2 ^ 31

/-- std::accumulate(split_sizes.begin(), split_sizes.end(), 0) at line 146:
the init value 0 has type int, so each int64_t element is converted to int
and the running sum is kept in int (signed 32-bit overflow is undefined in
C++; the model wraps, as the common compilers do). -/
def accumulateInt (xs : List Int) : Int :=
  xs.foldl (fun acc x => toInt32 (acc + toInt32 x)) 0

/-- checkSplitSizes (lines 131-151). -/
def checkSplitSizes (splitSizes : List Int) (t : Tensor) (groupSize : Nat) :
    Except CclError Unit :=
  if splitSizes.length = 0 then
    torchCheck (decide (t.dim0 % groupSize = 0))
      ("Tensors dim 0 does not divide equally across group size")
  else do
    torchCheck (decide (splitSizes.length = groupSize))
      ("Number of tensor splits not equal to group size")
    torchCheck (decide (accumulateInt splitSizes = (t.dim0 : Int)))
      ("Split sizes does not match total dim 0 size")

/-- Conversion of an int64_t value to size_t: reduction modulo 2^64. -/
def intToSizeT (x : Int) : Nat := (x % (2 ^ 64 : Int)).toNat

/-- The per-rank count table computed in the alltoallv branch of
ProcessGroupCCL::alltoall_base (lines 695-711), for one side (the code runs
the same computation for sendCounts from the input tensor and for recvCounts
from the output tensor).  Counts live in a std::vector<size_t>; the product
of an int64_t split entry and the size_t length wraps modulo 2^64. -/
def computeA2ACounts (splitSizes : List Int) (t : Tensor) (groupSize : Nat) :
    List Nat :=
  let splitsEqual := splitSizes.length = 0
  let len0 := t.numel
  let len := if len0 ≠ 0 then len0 / (if splitsEqual then groupSize else t.dim0) else len0
  (List.range groupSize).map (fun i =>
    if splitsEqual then len else intToSizeT (splitSizes.getD i 0 * (len : Int)))

/-- An asynchronous substrate request; completed records whether the substrate
has finished the operation (set once its wait() has returned). -/
structure CclRequest where
  completed : Bool
deriving DecidableEq

/-- ProcessGroupCCL::WorkCCL: zero-or-one outstanding request plus the tensors
kept alive until completion. -/
structure WorkCCL where
  req : Option CclRequest
  tensors : List Tensor
deriving DecidableEq

/-- Outcome of running the WorkCCL destructor. -/
inductive DtorOutcome
  | ok | terminate
deriving DecidableEq

/-- WorkCCL destructor (lines 203-212): std::terminate when a request is
still held, normal return otherwise; no exception path exists. -/
def WorkCCL.dtor (w : WorkCCL) : DtorOutcome :=
  if w.req.isSome then DtorOutcome.terminate else DtorOutcome.ok

/-- WorkCCL::isCompleted (lines 214-233): true immediately with no request;
otherwise poll req, and on completion drop the request and the tensors. -/
def WorkCCL.isCompleted (w : WorkCCL) : Bool × WorkCCL :=
  match w.req with
  | none => (true, w)
  | some r => if r.completed then (true, ⟨none, []⟩) else (false, w)

/-- WorkCCL::wait (lines 245-259): true immediately with no request;
otherwise block until the substrate completes, then drop the request and the
tensors and return true. -/
def WorkCCL.wait (w : WorkCCL) : Bool × WorkCCL :=
  match w.req with
  | none => (true, w)
  | some _ => (true, ⟨none, []⟩)

/-- WorkCCL::isSuccess (lines 235-243). -/
def WorkCCL.isSuccess (w : WorkCCL) : Except CclError Bool :=
  if w.req.isSome then
    Except.error (CclError.invalidState
      ("invalid call to WorkCCL isSuccess before work has completed"))
  else Except.ok true

/-- Element type carried by the flat buffer (its options). -/
def FlatTensor.dtypeOf : FlatTensor → ScalarType
  | FlatTensor.existing t => t.dtype
  | FlatTensor.fresh _ dt => dt

/-- The flat buffer as a tensor.  A fresh buffer models at::empty; its storage
id is nominal (a newly allocated storage, distinct from all caller storages;
no claim compares it). -/
def FlatTensor.toTensor : FlatTensor → Tensor
  | FlatTensor.existing t => t
  | FlatTensor.fresh n dt => ⟨[n], 0, 0, dt, true, false, false⟩

/-- Result of one dispatch call: the Work Handle handed back to the caller and
whether the call issued a synchronous req wait internally. -/
structure DispatchResult where
  work : WorkCCL
  waitedInside : Bool
deriving DecidableEq

/-- A freshly issued, not yet completed substrate request. -/
def newReq : CclRequest := ⟨false⟩

/-- A request on which req wait() has already returned inside the dispatch
call. -/
def doneReq : CclRequest := ⟨true⟩

/-- std::vector writes through operator[]: an out-of-range index is undefined
behaviour in C++, modelled as an explicit error marker. -/
def vectorSet (l : List Nat) (i : Int) (v : Nat) : Except CclError (List Nat) :=
  if 0 ≤ i ∧ i.toNat < l.length then Except.ok (l.set i.toNat v)
  else Except.error (CclError.undefinedBehavior ("vector index out of range"))

/-- ProcessGroupCCL::broadcast (lines 337-358). -/
def broadcast (tensors : List Tensor) (rootRank : Int) (groupSize : Nat) :
    Except CclError DispatchResult := do
  checkSingleTensor tensors
  checkRank rootRank groupSize
  let t := tensors.getD 0 default
  match cclDatatypes t.dtype with
  | none => Except.error (CclError.substrate ("unknown error"))
  | some _ => Except.ok ⟨⟨some newReq, tensors⟩, false⟩

/-- ProcessGroupCCL::allreduce (lines 360-381). -/
def allreduce (tensors : List Tensor) (op : ReduceOp) :
    Except CclError DispatchResult := do
  checkSingleTensor tensors
  let t := tensors.getD 0 default
  match cclDatatypes t.dtype with
  | none => Except.error (CclError.substrate ("unknown error"))
  | some _ =>
    match cclOps op with
    | none => Except.error (CclError.substrate ("unknown error"))
    | some _ => Except.ok ⟨⟨some newReq, tensors⟩, false⟩

/-- ProcessGroupCCL::reduce (lines 390-413). -/
def reduce (tensors : List Tensor) (op : ReduceOp) (rootRank : Int)
    (groupSize : Nat) : Except CclError DispatchResult := do
  checkSingleTensor tensors
  checkRank rootRank groupSize
  let t := tensors.getD 0 default
  match cclDatatypes t.dtype with
  | none => Except.error (CclError.substrate ("unknown error"))
  | some _ =>
    match cclOps op with
    | none => Except.error (CclError.substrate ("unknown error"))
    | some _ => Except.ok ⟨⟨some newReq, tensors⟩, false⟩

/-- ProcessGroupCCL::allgather (lines 415-471).  The USE_VECTOR_ALLGATHERV
compile-time variant is a configuration flag: with it the substrate scatters
into the output tensors directly and the handle keeps them and the input
alive; without it (flat-destination mode) the code waits synchronously on req,
copies the flat result back, and builds the handle from the still-held req
and an empty tensor list. -/
def allgather (outputTensors : List (List Tensor)) (inputTensors : List Tensor)
    (groupSize : Nat) (useVectorAllgatherv : Bool) :
    Except CclError DispatchResult := do
  checkSingleTensor inputTensors
  torchCheck (decide (outputTensors.length = 1))
    ("ProcessGroupCCL/allgather supports a single tensor op only")
  let outs := outputTensors.getD 0 []
  torchCheck (decide (groupSize = outs.length))
    ("ProcessGroupCCL/allgather: number of output tensors should equal to the world size")
  let inp := inputTensors.getD 0 default
  checkSameSizeAndType inp outs
  match cclDatatypes inp.dtype with
  | none => Except.error (CclError.substrate ("unknown error"))
  | some _ =>
    if useVectorAllgatherv then
      Except.ok ⟨⟨some newReq, outs ++ [inp]⟩, false⟩
    else
      Except.ok ⟨⟨some doneReq, []⟩, true⟩

/-- ProcessGroupCCL::gather (lines 489-575).  Note that no checkRank call is
issued: the write sendCounts[opts.rootRank] is reached with an unvalidated
root rank. -/
def gather (outputTensors : List (List Tensor)) (inputTensors : List Tensor)
    (rootRank rank : Int) (groupSize : Nat) : Except CclError DispatchResult := do
  checkSingleTensor inputTensors
  let inp := inputTensors.getD 0 default
  if rank ≠ rootRank then
    torchCheck (decide (outputTensors.length = 0))
      ("Gather: number of output tensors should be 0 for non-root")
  else do
    torchCheck (decide (outputTensors.length = 1))
      ("Gather: multi-GPU collective is not supported")
    torchCheck (decide (groupSize = (outputTensors.getD 0 []).length))
      ("Gather: number of output tensors should equal to the world size")
    checkSameSizeAndType inp (outputTensors.getD 0 [])
  let sendCounts ← vectorSet (List.replicate groupSize 0) rootRank inp.numel
  if rank = rootRank then
    match computeLengthsAndCheckAndGetFlat (outputTensors.getD 0 []) with
    | none => Except.error (CclError.undefinedBehavior ("tensors index 0 on empty collection"))
    | some (isOutputFlat, recvCounts, flatOutput) => do
      torchCheck (decide (sendCounts.getD rank.toNat 0 = recvCounts.getD rank.toNat 0))
        ("Gather: Send and recv count does not match")
      match cclDatatypes flatOutput.dtypeOf with
      | none => Except.error (CclError.substrate ("unknown error"))
      | some _ =>
        if !isOutputFlat then
          Except.ok ⟨⟨some doneReq, []⟩, true⟩
        else
          Except.ok ⟨⟨some newReq, [flatOutput.toTensor, inp]⟩, false⟩
  else
    match cclDatatypes inp.dtype with
    | none => Except.error (CclError.substrate ("unknown error"))
    | some _ => Except.ok ⟨⟨some newReq, [inp]⟩, false⟩

/-- ProcessGroupCCL::scatter (lines 577-650).  As with gather, the root rank
is never validated before recvCounts[opts.rootRank] is written. -/
def scatter (outputTensors : List Tensor) (inputTensors : List (List Tensor))
    (rootRank rank : Int) (groupSize : Nat) : Except CclError DispatchResult := do
  checkSingleTensor outputTensors
  let out := outputTensors.getD 0 default
  if rank ≠ rootRank then
    torchCheck (decide (inputTensors.length = 0))
      ("Scatter: number of input tensors should be 0 for non-root")
  else do
    torchCheck (decide (inputTensors.length = 1))
      ("Scatter: multi-GPU collective is not supported")
    torchCheck (decide (groupSize = (inputTensors.getD 0 []).length))
      ("Scatter: number of input tensors should equal to the world size")
    checkSameSizeAndType out (inputTensors.getD 0 [])
  let recvCounts ← vectorSet (List.replicate groupSize 0) rootRank out.numel
  if rank = rootRank then
    match computeLengthsAndCheckAndGetFlat (inputTensors.getD 0 []) with
    | none => Except.error (CclError.undefinedBehavior ("tensors index 0 on empty collection"))
    | some (_isInputFlat, sendCounts, flatInput) => do
      torchCheck (decide (recvCounts.getD rank.toNat 0 = sendCounts.getD rank.toNat 0))
        ("Scatter: Send and recv count does not match")
      match cclDatatypes flatInput.dtypeOf with
      | none => Except.error (CclError.substrate ("unknown error"))
      | some _ => Except.ok ⟨⟨some newReq, [out, flatInput.toTensor]⟩, false⟩
  else
    match cclDatatypes out.dtype with
    | none => Except.error (CclError.substrate ("unknown error"))
    | some _ => Except.ok ⟨⟨some newReq, [out]⟩, false⟩

/-- ProcessGroupCCL::alltoall_base (lines 660-724). -/
def alltoall_base (outputTensor inputTensor : Tensor)
    (outputSplitSizes inputSplitSizes : List Int) (groupSize : Nat) :
    Except CclError DispatchResult := do
  checkSingleTensorHelper inputTensor
  checkSingleTensorHelper outputTensor
  if outputSplitSizes.length = 0 ∧ inputSplitSizes.length = 0 then do
    torchCheck (decide (outputTensor.numel = inputTensor.numel ∧
        outputTensor.dtype = inputTensor.dtype))
      ("Tensors are not equal in size or data type")
    torchCheck (decide (outputTensor.dim0 % groupSize = 0))
      ("Tensors dim 0 does not divide equally across group size")
    match cclDatatypes outputTensor.dtype with
    | none => Except.error (CclError.substrate ("unknown error"))
    | some _ => Except.ok ⟨⟨some newReq, [inputTensor, outputTensor]⟩, false⟩
  else do
    checkSplitSizes inputSplitSizes inputTensor groupSize
    checkSplitSizes outputSplitSizes outputTensor groupSize
    match cclDatatypes outputTensor.dtype with
    | none => Except.error (CclError.substrate ("unknown error"))
    | some _ => Except.ok ⟨⟨some newReq, [inputTensor, outputTensor]⟩, false⟩

/-- ProcessGroupCCL::alltoall, list-of-buffers form (lines 726-796). -/
def alltoall (outputTensors inputTensors : List Tensor) (groupSize : Nat) :
    Except CclError DispatchResult := do
  torchCheck (decide (inputTensors.length = groupSize))
    ("Number of input tensors are not equal to group size")
  torchCheck (decide (outputTensors.length = groupSize))
    ("Number of output tensors are not equal to group size")
  checkSameType (outputTensors.getD 0 default) inputTensors
  checkSameType (inputTensors.getD 0 default) outputTensors
  match computeLengthsAndCheckAndGetFlat inputTensors with
  | none => Except.error (CclError.undefinedBehavior ("tensors index 0 on empty collection"))
  | some (_isInputFlat, _sendCounts, flatInput) =>
    match computeLengthsAndCheckAndGetFlat outputTensors with
    | none => Except.error (CclError.undefinedBehavior ("tensors index 0 on empty collection"))
    | some (isOutputFlat, _recvCounts, flatOutput) =>
      match cclDatatypes flatOutput.dtypeOf with
      | none => Except.error (CclError.substrate ("unknown error"))
      | some _ =>
        if !isOutputFlat then
          Except.ok ⟨⟨some doneReq, []⟩, true⟩
        else
          Except.ok ⟨⟨some newReq, [flatOutput.toTensor, flatInput.toTensor]⟩, false⟩

/-- ProcessGroupCCL::barrier (lines 821-827): the substrate barrier is
synchronous and the returned handle carries no request. -/
def barrier : DispatchResult := ⟨⟨none, []⟩, false⟩

@[simp] theorem ok_bind {α β : Type} (a : α) (f : α → Except CclError β) :
    (Except.ok a >>= f) = f a := rfl

@[simp] theorem error_bind {α β : Type} (e : CclError) (f : α → Except CclError β) :
    ((Except.error e : Except CclError α) >>= f) = Except.error e := rfl

theorem bind_eq_ok {α β : Type} {x : Except CclError α}
    {f : α → Except CclError β} {b : β}
    (h : x >>= f = Except.ok b) : ∃ a, x = Except.ok a ∧ f a = Except.ok b := by
  cases x with
  | error e =>
    simp only [error_bind] at h
    exact Except.noConfusion h
  | ok a => exact ⟨a, rfl, by simpa using h⟩

/-- Claim C7: destroying a Work Handle that still holds an outstanding
substrate request terminates the process, and never returns or throws a
recoverable error (the destructor has no other outcome); destroying a handle
with no request is harmless. -/
theorem c7_dtor_outstanding_terminates (w : WorkCCL) :
    (w.req.isSome = true → w.dtor = DtorOutcome.terminate) ∧
    (w.req = none → w.dtor = DtorOutcome.ok) := by
  constructor
  · intro h
    simp [WorkCCL.dtor, h]
  · intro h
    simp [WorkCCL.dtor, h]

/-- Witness for C7: a handle holding a fresh request terminates on
destruction; the barrier-style handle does not. -/
theorem c7_witness :
    (WorkCCL.mk (some newReq) []).dtor = DtorOutcome.terminate ∧
    (WorkCCL.mk none []).dtor = DtorOutcome.ok :=
  ⟨(c7_dtor_outstanding_terminates ⟨some newReq, []⟩).1 rfl,
   (c7_dtor_outstanding_terminates ⟨none, []⟩).2 rfl⟩

/-- Claim C8: a Work Handle holding no substrate request reports
isCompleted() = true and wait() = true, immediately and without modifying the
handle state. -/
theorem c8_no_request_completed (w : WorkCCL) (h : w.req = none) :
    WorkCCL.isCompleted w = (true, w) ∧ WorkCCL.wait w = (true, w) := by
  obtain ⟨r, ts⟩ := w
  have hr : r = none := h
  subst hr
  exact ⟨rfl, rfl⟩

/-- Witness for C8: the handle returned by barrier carries no request. -/
theorem c8_witness :
    WorkCCL.isCompleted barrier.work = (true, barrier.work) ∧
    WorkCCL.wait barrier.work = (true, barrier.work) :=
  c8_no_request_completed barrier.work rfl

/-- Claim C5 (code bug): checkSplitSizes accumulates the int64_t split sizes
into a 32-bit int, so a split list whose true sum differs from the leading
dimension by a multiple of 2^32 is accepted: with group size 1, split list
[4294967296] and a buffer of leading dimension 0, validation succeeds even
though the entries do not sum to the dimension. -/
theorem c5_split_sum_truncation :
    checkSplitSizes [(4294967296 : Int)] (sampleT 0 11 0) 1 = Except.ok () ∧
    List.sum [(4294967296 : Int)] ≠ (((sampleT 0 11 0).dim0 : Nat) : Int) := by
  constructor
  · rfl
  · decide

/-- Sample buffer with a chosen element type. -/
def sampleTD (dt : ScalarType) : Tensor := ⟨[1], 1, 0, dt, true, false, false⟩

/-- Counterexample to C9: an unsupported element type (Short) makes broadcast
fail with the CCL_CHECK-wrapped generic runtime error (the std::out_of_range
thrown by map::at, caught by the catch-all), not with a validation error;
likewise an unsupported reduction operator (BAND) in allreduce. -/
theorem c9_counterexample :
    broadcast [sampleTD ScalarType.Short] 0 1 =
      Except.error (CclError.substrate ("unknown error")) ∧
    allreduce [sampleTD ScalarType.Float] ReduceOp.BAND =
      Except.error (CclError.substrate ("unknown error")) :=
  ⟨rfl, rfl⟩

/-- Claim C9 as amended: a dispatch call whose element type or reduction
operator is outside the supported maps fails before the substrate is entered,
but with the generic wrapped runtime error produced by the CCL_CHECK
translation of the std::out_of_range from map::at, not with a validation
error (the lookup itself is memory-safe: no unchecked out-of-range
access). -/
theorem c9_lookup_unknown_error :
    (∀ (ts : List Tensor) (root : Int) (size : Nat),
       checkSingleTensor ts = Except.ok () →
       checkRank root size = Except.ok () →
       cclDatatypes (ts.getD 0 default).dtype = none →
       broadcast ts root size =
         Except.error (CclError.substrate ("unknown error"))) ∧
    (∀ (ts : List Tensor) (op : ReduceOp),
       checkSingleTensor ts = Except.ok () →
       (cclDatatypes (ts.getD 0 default).dtype = none ∨ cclOps op = none) →
       allreduce ts op =
         Except.error (CclError.substrate ("unknown error"))) := by
  constructor
  · intro ts root size h1 h2 hdt
    unfold broadcast
    rw [h1]
    simp only [ok_bind]
    rw [h2]
    simp only [ok_bind]
    rw [hdt]
  · intro ts op h1 hmiss
    unfold allreduce
    rw [h1]
    simp only [ok_bind]
    cases hdt : cclDatatypes (ts.getD 0 default).dtype with
    | none => rfl
    | some dt =>
      cases hmiss with
      | inl h => exact absurd hdt (by rw [h]; exact fun hh => Option.noConfusion hh)
      | inr hop =>
        cases hoc : cclOps op with
        | none => rfl
        | some oc => rw [hop] at hoc; exact Option.noConfusion hoc

/-- Witness for C9 at concrete unsupported inputs (Half element type, BOR
operator). -/
theorem c9_witness :
    broadcast [sampleTD ScalarType.Half] 0 1 =
      Except.error (CclError.substrate ("unknown error")) ∧
    allreduce [sampleTD ScalarType.Float] ReduceOp.BOR =
      Except.error (CclError.substrate ("unknown error")) :=
  ⟨c9_lookup_unknown_error.1 [sampleTD ScalarType.Half] 0 1 rfl rfl rfl,
   c9_lookup_unknown_error.2 [sampleTD ScalarType.Float] ReduceOp.BOR rfl (Or.inr rfl)⟩

/-- Counterexample to C2: gather on a non-root rank with an out-of-range root
(root 2 in a group of size 2) passes all validation and reaches the
out-of-bounds write sendCounts[opts.rootRank] (undefined behaviour in the
C++), instead of failing with a validation error before any substrate
call. -/
theorem c2_counterexample :
    gather [] [sampleT 1 1 0] 2 0 2 =
      Except.error (CclError.undefinedBehavior ("vector index out of range")) := rfl

/-- Claim C2 as amended: broadcast and reduce reject an out-of-range root rank
with a validation error before any substrate call; gather and scatter never
validate the root rank, and an out-of-range root reaches an out-of-bounds
vector write (undefined behaviour), not a validation error. -/
theorem c2_root_rank_validation :
    (∀ (ts : List Tensor) (root : Int) (size : Nat),
       checkSingleTensor ts = Except.ok () →
       ¬(0 ≤ root ∧ root < (size : Int)) →
       broadcast ts root size =
         Except.error (CclError.validation ("unexpected rank"))) ∧
    (∀ (ts : List Tensor) (op : ReduceOp) (root : Int) (size : Nat),
       checkSingleTensor ts = Except.ok () →
       ¬(0 ≤ root ∧ root < (size : Int)) →
       reduce ts op root size =
         Except.error (CclError.validation ("unexpected rank"))) ∧
    (∀ (inps : List Tensor) (root rank : Int) (size : Nat),
       checkSingleTensor inps = Except.ok () →
       0 ≤ rank → rank < (size : Int) →
       ¬(0 ≤ root ∧ root < (size : Int)) →
       gather [] inps root rank size =
         Except.error (CclError.undefinedBehavior ("vector index out of range"))) ∧
    (∀ (outs : List Tensor) (root rank : Int) (size : Nat),
       checkSingleTensor outs = Except.ok () →
       0 ≤ rank → rank < (size : Int) →
       ¬(0 ≤ root ∧ root < (size : Int)) →
       scatter outs [] root rank size =
         Except.error (CclError.undefinedBehavior ("vector index out of range"))) := by
  have hrank_err : ∀ (root : Int) (size : Nat), ¬(0 ≤ root ∧ root < (size : Int)) →
      checkRank root size = Except.error (CclError.validation ("unexpected rank")) := by
    intro root size hroot
    unfold checkRank torchCheck
    rw [decide_eq_false hroot]
    rfl
  refine ⟨?_, ?_, ?_, ?_⟩
  · intro ts root size h1 hroot
    unfold broadcast
    rw [h1]
    simp only [ok_bind]
    rw [hrank_err root size hroot]
    simp only [error_bind]
  · intro ts op root size h1 hroot
    unfold reduce
    rw [h1]
    simp only [ok_bind]
    rw [hrank_err root size hroot]
    simp only [error_bind]
  · intro inps root rank size h1 hr0 hrs hroot
    have hne : rank ≠ root := by
      intro hh
      subst hh
      exact hroot ⟨hr0, hrs⟩
    have hidx : ¬(0 ≤ root ∧ root.toNat < (List.replicate size (0 : Nat)).length) := by
      simp only [List.length_replicate]
      rintro ⟨h0, hlt⟩
      exact hroot ⟨h0, by omega⟩
    unfold gather vectorSet
    rw [h1]
    simp only [ok_bind, if_pos hne]
    have hlen : torchCheck (decide (([] : List (List Tensor)).length = 0))
        ("Gather: number of output tensors should be 0 for non-root") = Except.ok () := rfl
    rw [hlen]
    simp only [ok_bind]
    rw [if_neg hidx]
    simp only [error_bind]
  · intro outs root rank size h1 hr0 hrs hroot
    have hne : rank ≠ root := by
      intro hh
      subst hh
      exact hroot ⟨hr0, hrs⟩
    have hidx : ¬(0 ≤ root ∧ root.toNat < (List.replicate size (0 : Nat)).length) := by
      simp only [List.length_replicate]
      rintro ⟨h0, hlt⟩
      exact hroot ⟨h0, by omega⟩
    unfold scatter vectorSet
    rw [h1]
    simp only [ok_bind, if_pos hne]
    have hlen : torchCheck (decide (([] : List (List Tensor)).length = 0))
        ("Scatter: number of input tensors should be 0 for non-root") = Except.ok () := rfl
    rw [hlen]
    simp only [ok_bind]
    rw [if_neg hidx]
    simp only [error_bind]

/-- Witness for C2 at concrete inputs: a negative root for broadcast and
reduce; root 3 in a group of size 2 for gather and scatter. -/
theorem c2_witness :
    broadcast [sampleT 1 1 0] (-1) 2 =
      Except.error (CclError.validation ("unexpected rank")) ∧
    reduce [sampleT 1 1 0] ReduceOp.SUM (-1) 2 =
      Except.error (CclError.validation ("unexpected rank")) ∧
    gather [] [sampleT 1 1 0] 3 0 2 =
      Except.error (CclError.undefinedBehavior ("vector index out of range")) ∧
    scatter [sampleT 1 1 0] [] 3 0 2 =
      Except.error (CclError.undefinedBehavior ("vector index out of range")) :=
  ⟨c2_root_rank_validation.1 [sampleT 1 1 0] (-1) 2 rfl (by decide),
   c2_root_rank_validation.2.1 [sampleT 1 1 0] ReduceOp.SUM (-1) 2 rfl (by decide),
   c2_root_rank_validation.2.2.1 [sampleT 1 1 0] 3 0 2 rfl (by decide) (by decide) (by decide),
   c2_root_rank_validation.2.2.2 [sampleT 1 1 0] 3 0 2 rfl (by decide) (by decide) (by decide)⟩

/-- Handle contract actually delivered by the flat copy-back dispatch paths: a
synchronous wait was issued inside the call and the handle holds the
already-completed request with an empty tensor list; polling it completes and
clears it, but destroying it without a prior wait()/isCompleted() call
terminates the process. -/
def syncWaitedHandle (r : DispatchResult) : Prop :=
  r.waitedInside = true ∧
  r.work.req = some doneReq ∧
  r.work.tensors = [] ∧
  WorkCCL.isCompleted r.work = (true, ⟨none, []⟩) ∧
  r.work.dtor = DtorOutcome.terminate

/-- Counterexample to C1: a flat-destination-mode all-gather waits
synchronously inside the dispatch call, yet the Work Handle it returns still
holds the substrate request, and destroying that handle terminates the
process instead of behaving like an already-completed handle. -/
theorem c1_counterexample :
    allgather [[sampleT 1 2 0]] [sampleT 1 1 0] 1 false =
      Except.ok ⟨⟨some doneReq, []⟩, true⟩ ∧
    (WorkCCL.mk (some doneReq) []).req ≠ none ∧
    (WorkCCL.mk (some doneReq) []).dtor = DtorOutcome.terminate := by
  refine ⟨rfl, ?_, rfl⟩
  intro h
  exact Option.noConfusion h

/-- Claim C1 as amended: every successful dispatch on a flat-buffer copy-back
path (all-gather in flat-destination mode, gather on the root with a non-flat
output collection, list-form all-to-all with a non-flat output collection)
performs the substrate wait synchronously inside the call, and the returned
Work Handle holds the already-completed request: polling it behaves as
completed, but destroying it without first calling wait()/isCompleted()
terminates the process. -/
theorem c1_flat_copyback_sync_wait :
    (∀ (outs : List (List Tensor)) (inps : List Tensor) (size : Nat)
       (r : DispatchResult),
       allgather outs inps size false = Except.ok r → syncWaitedHandle r) ∧
    (∀ (outs : List (List Tensor)) (inps : List Tensor) (root rank : Int)
       (size : Nat) (r : DispatchResult),
       rank = root →
       reconcilerVerdict (outs.getD 0 []) = some false →
       gather outs inps root rank size = Except.ok r → syncWaitedHandle r) ∧
    (∀ (outs inps : List Tensor) (size : Nat) (r : DispatchResult),
       reconcilerVerdict outs = some false →
       alltoall outs inps size = Except.ok r → syncWaitedHandle r) := by
  refine ⟨?_, ?_, ?_⟩
  · intro outs inps size r h
    simp only [allgather] at h
    obtain ⟨u1, h1, h⟩ := bind_eq_ok h
    obtain ⟨u2, h2, h⟩ := bind_eq_ok h
    obtain ⟨u3, h3, h⟩ := bind_eq_ok h
    obtain ⟨u4, h4, h⟩ := bind_eq_ok h
    cases hdt : cclDatatypes (inps.getD 0 default).dtype with
    | none =>
      rw [hdt] at h
      exact Except.noConfusion h
    | some dt =>
      rw [hdt] at h
      simp only [Bool.false_eq_true, if_false] at h
      obtain rfl : DispatchResult.mk ⟨some doneReq, []⟩ true = r := by
        injection h
      exact ⟨rfl, rfl, rfl, rfl, rfl⟩
  · intro outs inps root rank size r hrank hverdict h
    subst hrank
    simp only [gather] at h
    obtain ⟨u1, h1, h⟩ := bind_eq_ok h
    rw [if_neg (fun hh => hh rfl)] at h
    obtain ⟨u2, h2, h⟩ := bind_eq_ok h
    obtain ⟨u3, h3, h⟩ := bind_eq_ok h
    obtain ⟨u4, h4, h⟩ := bind_eq_ok h
    obtain ⟨sendCounts, hsc, h⟩ := bind_eq_ok h
    rw [if_pos trivial] at h
    split at h
    · exact Except.noConfusion h
    · rename_i bflag lens ft heq
      simp only [reconcilerVerdict] at hverdict
      rw [heq] at hverdict
      simp at hverdict
      subst hverdict
      obtain ⟨u5, h5, h⟩ := bind_eq_ok h
      split at h
      · exact Except.noConfusion h
      · simp at h
        subst h
        exact ⟨rfl, rfl, rfl, rfl, rfl⟩
  · intro outs inps size r hverdict h
    simp only [alltoall] at h
    obtain ⟨u1, h1, h⟩ := bind_eq_ok h
    obtain ⟨u2, h2, h⟩ := bind_eq_ok h
    obtain ⟨u3, h3, h⟩ := bind_eq_ok h
    obtain ⟨u4, h4, h⟩ := bind_eq_ok h
    split at h
    · exact Except.noConfusion h
    · rename_i bIn lensIn ftIn heqIn
      split at h
      · exact Except.noConfusion h
      · rename_i bOut lensOut ftOut heqOut
        simp only [reconcilerVerdict] at hverdict
        rw [heqOut] at hverdict
        simp at hverdict
        subst hverdict
        split at h
        · exact Except.noConfusion h
        · simp at h
          subst h
          exact ⟨rfl, rfl, rfl, rfl, rfl⟩

/-- Witness for C1: the concrete flat-destination all-gather from the
counterexample satisfies the amended handle contract. -/
theorem c1_witness : syncWaitedHandle ⟨⟨some doneReq, []⟩, true⟩ :=
  c1_flat_copyback_sync_wait.1 [[sampleT 1 2 0]] [sampleT 1 1 0] 1
    ⟨⟨some doneReq, []⟩, true⟩ rfl

theorem toInt32_eq_self (x : Int) (h1 : -2 ^ 31 ≤ x) (h2 : x < 2 ^ 31) :
    toInt32 x = x := by
  unfold toInt32
  rw [Int.emod_eq_of_lt (by omega) (by omega)]
  omega

theorem accumulateInt_aux (l : List Int) : ∀ (acc : Int), 0 ≤ acc →
    (∀ x ∈ l, 0 ≤ x) → acc + l.sum < 2 ^ 31 →
    l.foldl (fun a x => toInt32 (a + toInt32 x)) acc = acc + l.sum := by
  induction l with
  | nil => intro acc _ _ _; simp
  | cons x xs ih =>
    intro acc hacc hnn hbound
    have hx : 0 ≤ x := hnn x (by simp)
    have hxs : ∀ y ∈ xs, 0 ≤ y := fun y hy => hnn y (by simp [hy])
    have hsx : 0 ≤ xs.sum := List.sum_nonneg hxs
    have hsum : (x :: xs).sum = x + xs.sum := by simp
    rw [hsum] at hbound
    have hx32 : toInt32 x = x := toInt32_eq_self x (by omega) (by omega)
    simp only [List.foldl_cons, hx32]
    have haccx : toInt32 (acc + x) = acc + x := toInt32_eq_self _ (by omega) (by omega)
    rw [haccx, ih (acc + x) (by omega) hxs (by omega), hsum]
    ring

theorem accumulateInt_eq_sum (l : List Int) (hnn : ∀ x ∈ l, 0 ≤ x)
    (hb : l.sum < 2 ^ 31) : accumulateInt l = l.sum := by
  have h := accumulateInt_aux l 0 le_rfl hnn (by omega)
  simpa [accumulateInt] using h

theorem intToSizeT_of_lt (y : Int) (h1 : 0 ≤ y) (h2 : y < 2 ^ 64) :
    intToSizeT y = y.toNat := by
  unfold intToSizeT
  rw [Int.emod_eq_of_lt h1 (by omega)]

theorem rangeMap_getD {α β : Type} (l : List α) (dflt : α) (g : α → β) :
    (List.range l.length).map (fun i => g (l.getD i dflt)) = l.map g := by
  induction l with
  | nil => simp
  | cons x xs ih =>
    rw [List.length_cons, List.range_succ_eq_map]
    simp only [List.map_cons, List.getD_cons_zero, List.map_map, List.map]
    have hcong : ∀ i ∈ List.range xs.length,
        ((fun i => g ((x :: xs).getD i dflt)) ∘ Nat.succ) i =
          (fun i => g (xs.getD i dflt)) i := by
      intro i _
      simp
    rw [List.map_congr_left hcong, ih]

theorem range_map_const_sum (n c : Nat) :
    ((List.range n).map (fun _ => c)).sum = n * c := by
  induction n with
  | zero => simp
  | succ n ih =>
    rw [List.range_succ, List.map_append, List.sum_append, ih]
    simp [Nat.succ_mul]

theorem sum_map_toNat_mul (P : Nat) (l : List Int) (hnn : ∀ x ∈ l, 0 ≤ x) :
    (l.map (fun x => (x * (P : Int)).toNat)).sum = l.sum.toNat * P := by
  induction l with
  | nil => simp
  | cons x xs ih =>
    have hx : 0 ≤ x := hnn x (by simp)
    have hxs : ∀ y ∈ xs, 0 ≤ y := fun y hy => hnn y (by simp [hy])
    have hsx : 0 ≤ xs.sum := List.sum_nonneg hxs
    have h1 : (x * (P : Int)).toNat = x.toNat * P := by
      obtain ⟨n, rfl⟩ := Int.eq_ofNat_of_zero_le hx
      rw [← Int.natCast_mul, Int.toNat_natCast, Int.toNat_natCast]
    have h2 : (x + xs.sum).toNat = x.toNat + xs.sum.toNat := by omega
    simp only [List.map_cons, List.sum_cons, ih hxs, h1, h2]
    ring

/-- Counterexample to C6: the split list [-1, 3] is accepted by checkSplitSizes
for a 2-element buffer of leading dimension 2 in a group of size 2 (entries
sum to the dimension), but the negative entry wraps in the size_t count
vector, so the computed per-rank counts do not sum to the element count. -/
theorem c6_counterexample :
    checkSplitSizes [(-1 : Int), 3] (sampleT 2 1 0) 2 = Except.ok () ∧
    (computeA2ACounts [(-1 : Int), 3] (sampleT 2 1 0) 2).sum ≠ (sampleT 2 1 0).numel := by
  constructor
  · rfl
  · decide

/-- Claim C6 as amended: for an all-to-all buffer with at least one dimension
and fewer than 2^64 elements, and a split list that is either empty (with the
group size dividing the leading dimension) or per-rank with nonnegative
entries summing exactly to a leading dimension below 2^31 (so that the 32-bit
accumulation in checkSplitSizes does not wrap), validation succeeds and the
computed per-rank counts sum exactly to the buffer's element count, including
when the buffer has zero elements. -/
theorem c6_counts_sum_exact (t : Tensor) (d : Nat) (ds : List Nat)
    (split : List Int) (groupSize : Nat)
    (hshape : t.shape = d :: ds)
    (hsize : 0 < groupSize)
    (hnumel : t.numel < 2 ^ 64)
    (hsplit : (split = [] ∧ d % groupSize = 0) ∨
       (split.length = groupSize ∧ (∀ x ∈ split, 0 ≤ x) ∧
        split.sum = (d : Int) ∧ d < 2 ^ 31)) :
    checkSplitSizes split t groupSize = Except.ok () ∧
    (computeA2ACounts split t groupSize).sum = t.numel := by
  have hdim : t.dim0 = d := by simp [Tensor.dim0, hshape]
  have hprod : t.numel = d * ds.prod := by simp [Tensor.numel, hshape]
  rcases hsplit with ⟨hempty, hdiv⟩ | ⟨hlen, hnn, hsum, hd31⟩
  · subst hempty
    constructor
    · simp [checkSplitSizes, torchCheck, hdim, hdiv]
    · by_cases h0 : t.numel = 0
      · simp [computeA2ACounts, h0, range_map_const_sum]
      · have hdvd : groupSize ∣ t.numel := by
          rw [hprod]
          exact (Nat.dvd_of_mod_eq_zero hdiv).mul_right ds.prod
        have hform : computeA2ACounts [] t groupSize =
            (List.range groupSize).map (fun _ => t.numel / groupSize) := by
          simp [computeA2ACounts, h0]
        rw [hform, range_map_const_sum]
        exact Nat.mul_div_cancel' hdvd
  · have hlen0 : ¬(split.length = 0) := by omega
    have hacc : accumulateInt split = (d : Int) := by
      rw [accumulateInt_eq_sum split hnn (by rw [hsum]; exact_mod_cast hd31), hsum]
    constructor
    · simp only [checkSplitSizes, torchCheck]
      rw [if_neg hlen0]
      simp [hlen, hacc, hdim]
    · by_cases h0 : t.numel = 0
      · have hform : computeA2ACounts split t groupSize =
            (List.range groupSize).map
              (fun i => intToSizeT (split.getD i 0 * ((0 : Nat) : Int))) := by
          simp [computeA2ACounts, hlen0, h0]
        rw [hform, h0]
        apply List.sum_eq_zero
        intro y hy
        obtain ⟨i, _, rfl⟩ := List.mem_map.mp hy
        simp [intToSizeT]
      · have hd0 : d ≠ 0 := by
          intro hdd
          exact h0 (by rw [hprod, hdd]; simp)
        have hP : t.numel / d = ds.prod := by
          rw [hprod]
          exact Nat.mul_div_cancel_left ds.prod (Nat.pos_of_ne_zero hd0)
        have hform : computeA2ACounts split t groupSize =
            (List.range groupSize).map
              (fun i => intToSizeT (split.getD i 0 * ((ds.prod : Nat) : Int))) := by
          simp [computeA2ACounts, hlen0, h0, hdim, hP]
        have hrange : (List.range groupSize).map
              (fun i => intToSizeT (split.getD i 0 * ((ds.prod : Nat) : Int))) =
            split.map (fun x => intToSizeT (x * ((ds.prod : Nat) : Int))) := by
          rw [← hlen]
          exact rangeMap_getD split 0 (fun x => intToSizeT (x * ((ds.prod : Nat) : Int)))
        have hmapeq : split.map (fun x => intToSizeT (x * ((ds.prod : Nat) : Int))) =
            split.map (fun x => (x * ((ds.prod : Nat) : Int)).toNat) := by
          apply List.map_congr_left
          intro x hx
          have hx0 : 0 ≤ x := hnn x hx
          have hxd : x ≤ (d : Int) := by
            have h := List.single_le_sum hnn x hx
            rwa [hsum] at h
          apply intToSizeT_of_lt
          · exact mul_nonneg hx0 (Int.natCast_nonneg _)
          · calc x * ((ds.prod : Nat) : Int)
                ≤ (d : Int) * ((ds.prod : Nat) : Int) :=
                  mul_le_mul_of_nonneg_right hxd (Int.natCast_nonneg _)
              _ = ((d * ds.prod : Nat) : Int) := by push_cast; ring
              _ = ((t.numel : Nat) : Int) := by rw [hprod]
              _ < 2 ^ 64 := by exact_mod_cast hnumel
        rw [hform, hrange, hmapeq, sum_map_toNat_mul ds.prod split hnn, hsum,
            Int.toNat_natCast, hprod]

/-- Witness for C6 at a concrete call: a 4 x 2 buffer with per-rank splits
[1, 3] in a group of size 2. -/
theorem c6_witness :
    checkSplitSizes [(1 : Int), 3]
        (Tensor.mk [4, 2] 1 0 ScalarType.Float true false false) 2 = Except.ok () ∧
    (computeA2ACounts [(1 : Int), 3]
        (Tensor.mk [4, 2] 1 0 ScalarType.Float true false false) 2).sum =
      (Tensor.mk [4, 2] 1 0 ScalarType.Float true false false).numel :=
  c6_counts_sum_exact (Tensor.mk [4, 2] 1 0 ScalarType.Float true false false)
    4 [2] [(1 : Int), 3] 2 rfl (by decide) (by decide)
    (Or.inr ⟨rfl, by decide, by decide, by decide⟩)
